import Mathlib

/-!
Verification development for the client-side session/token core of the
LLM_MODES frontend: the token storage layer, the axios response
interceptor that performs refresh-and-retry, and the zustand auth store
(SessionController).  Every definition below is a shallow embedding of
the corresponding JavaScript in
src/frontend/src/services/authService.js and
src/frontend/src/stores/authStore.js, with JS library primitives
(base64/JSON decoding, the network, the event loop, setTimeout) made
explicit as parameters or as a small-step trace model.
-/

namespace LLMModes

/-! ### JS truthiness for optional strings

JS checks such as `if (token)` treat null, undefined and the empty
string as falsy.  We model a nullable JS string as `Option String` and
its truthiness as follows. -/

def strTruthy : Option String → Bool
  | none => false
  | some s => s != ""

/-! ### Token decoding

`tokenStorage.isTokenExpired` runs
`JSON.parse(atob(token.split('.')[1]))` inside a try/catch and then
evaluates `payload.exp < currentTime`.  We abstract the base64+JSON
pipeline as a decode oracle: decoding a string either throws
(`DecodeOutcome.fail`, caught by the catch block) or yields a payload
object whose `exp` field may be absent (JS `undefined`).  The JS
comparison `undefined < currentTime` evaluates to `false` (NaN
comparison), which the `payload none` branch reflects. -/

inductive DecodeOutcome where
  | fail : DecodeOutcome
  | payload : Option Int → DecodeOutcome
deriving DecidableEq

/-- Embedding of `tokenStorage.isTokenExpired` (authService.js).
`now` is `Date.now() / 1000` in seconds; `decode` is the
`JSON.parse(atob(...))` pipeline. -/
def isTokenExpired (decode : String → DecodeOutcome) (now : Int) :
    Option String → Bool
  | none => true
  | some s =>
    if s == "" then true  -- `if (!token) return true` also fires on ""
    else
      match decode s with
      | .fail => true  -- catch block: `return true`
      | .payload none => false  -- `undefined < currentTime` is false
      | .payload (some e) => decide (e < now)  -- `payload.exp < currentTime`

/-- Rendition of claim C4 in the words of the spec sentence: expired
iff the expiry claim is in the past; a token that is null, undecodable,
or decodable but without an exp claim is reported expired
(fail-closed).  Written from the claim text, to be compared against
`isTokenExpired` as embedded from the source. -/
def claimedExpired (decode : String → DecodeOutcome) (now : Int) :
    Option String → Bool
  | none => true
  | some s =>
    match decode s with
    | .payload (some e) => decide (e < now)
    | _ => true

/-- A concrete decode oracle corresponding to the JS behaviour on the
token string "x.e30.y": its payload segment "e30" base64-decodes to
the JSON text of an empty object, so `JSON.parse` succeeds and
`payload.exp` is `undefined`. -/
def decodeEmptyObj : String → DecodeOutcome := fun _ => .payload none

/-! ### TokenStore (`tokenStorage` in authService.js)

Two storage tiers per token, exactly as in the source:
memory (`window.__app_tokens`, which may not exist at all, modelled by
the outer `Option`) and the Storage fallbacks
(`sessionStorage['access_token']`, `localStorage['refresh_token']`,
whose `getItem` yields null when absent). -/

structure AppTokens where
  access : Option String   -- window.__app_tokens.access_token
  refresh : Option String  -- window.__app_tokens.refresh_token
deriving DecidableEq

structure TokenStore where
  mem : Option AppTokens        -- window.__app_tokens (may be undefined)
  sessionAccess : Option String -- sessionStorage access_token entry
  localRefresh : Option String  -- localStorage refresh_token entry
deriving DecidableEq

/-- The empty browser state: no `window.__app_tokens`, empty Storages. -/
def TokenStore.empty : TokenStore := ⟨none, none, none⟩

/-- `tokenStorage.getAccessToken`: memory first (truthiness check via
optional chaining), else `sessionStorage.getItem`. -/
def getAccessToken (ts : TokenStore) : Option String :=
  let memTok := ts.mem.bind (·.access)
  if strTruthy memTok then memTok else ts.sessionAccess

/-- `tokenStorage.setAccessToken` minus the `setTimeout` arm, which is
modelled in the timed layer below: create `window.__app_tokens` if
missing, store the token in memory and in sessionStorage. -/
def setAccessToken (ts : TokenStore) (tok : String) : TokenStore :=
  let m := ts.mem.getD ⟨none, none⟩
  { ts with mem := some { m with access := some tok },
            sessionAccess := some tok }

/-- `tokenStorage.getRefreshToken`: memory first, else
`localStorage.getItem`. -/
def getRefreshToken (ts : TokenStore) : Option String :=
  let memTok := ts.mem.bind (·.refresh)
  if strTruthy memTok then memTok else ts.localRefresh

/-- `tokenStorage.setRefreshToken`: memory plus localStorage. -/
def setRefreshToken (ts : TokenStore) (tok : String) : TokenStore :=
  let m := ts.mem.getD ⟨none, none⟩
  { ts with mem := some { m with refresh := some tok },
            localRefresh := some tok }

/-- `tokenStorage.clearAccessToken`: delete the memory slot if the
holder object exists, remove the sessionStorage entry. -/
def clearAccessToken (ts : TokenStore) : TokenStore :=
  { ts with mem := ts.mem.map fun m => { m with access := none },
            sessionAccess := none }

/-- `tokenStorage.clearTokens`: delete both memory slots if the holder
object exists, remove both Storage entries. -/
def clearTokens (ts : TokenStore) : TokenStore :=
  { ts with mem := ts.mem.map fun _ => ⟨none, none⟩,
            sessionAccess := none,
            localRefresh := none }

/-! ### The timed layer for the access-token auto-clear

`setAccessToken` arms `setTimeout(() => tokenStorage.clearAccessToken(),
15 * 60 * 1000)` and the source contains no `clearTimeout`, so every
call appends a new pending timeout and none is ever cancelled.  We
model the pending timeouts as the list of their absolute fire times in
milliseconds; `setTimeout` appends, so the list stays sorted and the
earliest pending timeout is the head. -/

structure TimedTokenState where
  store : TokenStore
  timers : List Nat  -- absolute fire times of pending clearAccessToken timeouts
deriving DecidableEq

def TimedTokenState.empty : TimedTokenState := ⟨TokenStore.empty, []⟩

/-- The full `tokenStorage.setAccessToken`, performed at wall-clock
time `now` (ms): the storage writes plus arming the 15-minute
auto-clear timeout. -/
def setAccessTokenAt (st : TimedTokenState) (now : Nat) (tok : String) :
    TimedTokenState :=
  { store := setAccessToken st.store tok,
    timers := st.timers ++ [now + 15 * 60 * 1000] }

/-- The event-loop step in which the earliest pending timeout fires:
its callback runs `tokenStorage.clearAccessToken()` and the timeout is
spent.  A no-op when no timeout is pending. -/
def fireEarliestTimer (st : TimedTokenState) : TimedTokenState :=
  match st.timers with
  | [] => st
  | _ :: rest => { store := clearAccessToken st.store, timers := rest }

/-! ### The response interceptor (`authService.interceptors.response`)

The rejected-response handler receives the axios error; the fields it
inspects are `error.response?.status` (absent on network failures) and
`originalRequest._retry`.  The handler body runs synchronously on the
event loop up to its only suspension point, the
`await axios.post(refresh endpoint)` inside the try block.  None of the
statements before that await can throw (`getRefreshToken` and
`isTokenExpired` are total), so the catch block is unreachable before
the suspension, and none of those statements writes the token store.
`respondError` is this synchronous prefix: it returns what the handler
does — suspend awaiting a freshly issued refresh POST, or fall through
to `return Promise.reject(error)` with the ORIGINAL error (the 423 and
429 branches only `console.warn` before that reject) — together with
the token store, unchanged in every branch exactly as in the source. -/

structure AxiosError where
  status : Option Nat  -- error.response?.status; none when there is no response
deriving DecidableEq

structure InterceptedRequest where
  retried : Bool  -- originalRequest._retry
deriving DecidableEq

inductive HandlerStep where
  /-- A POST to the refresh endpoint carrying `refreshToken` was just
  issued and the handler suspended awaiting it; `_retry` is now set on
  the original request. -/
  | awaitRefresh (refreshToken : String) (req : InterceptedRequest)
  /-- The handler reached `return Promise.reject(error)` with the
  original error, without issuing any request or touching the store. -/
  | rejectOriginal
deriving DecidableEq

def respondError (decode : String → DecodeOutcome) (now : Int)
    (ts : TokenStore) (e : AxiosError) (req : InterceptedRequest) :
    HandlerStep × TokenStore :=
  if e.status = some 401 ∧ req.retried = false then
    -- originalRequest._retry = true
    let req := { req with retried := true }
    let refreshToken := getRefreshToken ts
    if strTruthy refreshToken ∧
        isTokenExpired decode now refreshToken = false then
      (.awaitRefresh (refreshToken.getD "") req, ts)
    else
      -- the try block ends without throwing: the catch (and with it
      -- tokenStorage.clearTokens and the redirect) does not run and
      -- control falls through to Promise.reject(error)
      (.rejectOriginal, ts)
  else
    -- non-401, already-retried 401, 423 and 429 all fall through to
    -- Promise.reject(error) after at most a console.warn
    (.rejectOriginal, ts)

/-- The continuation of the handler after the awaited refresh POST
settles.  On fulfilment the handler stores the rotated pair (access
first, then refresh, as in the source) and replays the original
request; on rejection the catch block runs `tokenStorage.clearTokens()`
(plus the redirect, outside this model) and rejects with the refresh
error. -/
inductive HandlerOutcome where
  | retryWithToken (accessToken : String)
  | rejectRefreshError
deriving DecidableEq

def resumeAfterRefresh (ts : TokenStore)
    (refreshResult : Except Unit (String × String)) :
    HandlerOutcome × TokenStore :=
  match refreshResult with
  | .ok (accessToken, newRefreshToken) =>
    (.retryWithToken accessToken,
     setRefreshToken (setAccessToken ts accessToken) newRefreshToken)
  | .error _ => (.rejectRefreshError, clearTokens ts)

/-! ### Concurrent 401 delivery

The execution model is the single-threaded browser event loop: each
rejected response runs the handler above in its own microtask, and a
refresh POST issued inside a handler cannot settle before later
already-queued rejection callbacks run.  So when several requests
"receive 401 simultaneously", every handler prefix runs, in some
order, before any refresh response arrives.  `deliver401` is one such
prefix step over an accumulated loop state that counts the refresh
POSTs issued to the backend. -/

structure LoopState where
  ts : TokenStore
  refreshCalls : Nat  -- POSTs issued to the /api/auth/refresh endpoint
  suspended : List (String × InterceptedRequest)  -- awaiting their own refresh
  rejections : Nat    -- handlers that reached Promise.reject
deriving DecidableEq

def LoopState.start (ts : TokenStore) : LoopState := ⟨ts, 0, [], 0⟩

def deliver401 (decode : String → DecodeOutcome) (now : Int)
    (s : LoopState) (req : InterceptedRequest) : LoopState :=
  match respondError decode now s.ts ⟨some 401⟩ req with
  | (.awaitRefresh tok req, ts) =>
    { s with ts := ts, refreshCalls := s.refreshCalls + 1,
             suspended := s.suspended ++ [(tok, req)] }
  | (.rejectOriginal, ts) =>
    { s with ts := ts, rejections := s.rejections + 1 }

def deliver401s (decode : String → DecodeOutcome) (now : Int)
    (s : LoopState) (reqs : List InterceptedRequest) : LoopState :=
  reqs.foldl (deliver401 decode now) s

/-! ### Backend error payloads and message normalization (authAPI)

A failed request surfaces in the authAPI catch blocks as an axios error
whose `error.response?.data?.detail` may be absent, a string, an array
of structured validation entries, or some other JSON value.  An entry
of the array is read as `err.msg || err.message || err` before
`join(', ')`. -/

structure DetailEntry where
  msg : Option String      -- err.msg
  message : Option String  -- err.message
  asString : String        -- the string the entry itself coerces to in join
deriving DecidableEq

def entryText (e : DetailEntry) : String :=
  if strTruthy e.msg then e.msg.getD ""
  else if strTruthy e.message then e.message.getD ""
  else e.asString

inductive Detail where
  | absent                           -- undefined or null (falsy)
  | str (s : String)                 -- typeof detail is string ("" is falsy)
  | list (entries : List DetailEntry)  -- Array.isArray (arrays are truthy)
  | otherJson (stringified : String)   -- any other value; JSON.stringify result
deriving DecidableEq

/-- The shared shape of the catch blocks of `authAPI.register` and
`authAPI.login`: start from the fixed fallback, and overwrite it only
when `detail` is truthy — arrays joined over `entryText`, strings
passed through, anything else stringified. -/
def normalizeDetail (fallback : String) : Detail → String
  | .absent => fallback
  | .str s => if s == "" then fallback else s
  | .list entries => String.intercalate ", " (entries.map entryText)
  | .otherJson j => j

/-- The axios failure as seen by the authAPI catch blocks. -/
structure HttpFailure where
  status : Option Nat
  detail : Detail
deriving DecidableEq

/-- Message of the Error thrown by `authAPI.register` on failure. -/
def registrationErrorMessage (f : HttpFailure) : String :=
  normalizeDetail "Registration failed" f.detail

/-- Message of the Error thrown by `authAPI.login` on failure: the 423
and 429 special cases come first, then the normalization chain. -/
def loginErrorMessage (f : HttpFailure) : String :=
  if f.status = some 423 then
    "Account temporarily locked due to multiple failed attempts"
  else if f.status = some 429 then
    "Too many login attempts. Please try again later."
  else normalizeDetail "Login failed" f.detail

/-- Message of the Error thrown by `authAPI.getCurrentUser` on any
failure (the catch block discards the cause). -/
def meErrorMessage : String := "Failed to get user information"

/-! ### SessionController (`useAuthStore` in authStore.js)

The user profile is a JS object: a field map, with the spread merge
`{...currentUser, ...userData}` as right-biased union.  The store
state carries the four observable fields.  Backend outcomes of the
authAPI calls a store method awaits are passed as `Except` parameters;
a store method is the function from the prior state and those outcomes
to the state after the method resolves, together with its returned
result value. -/

def UserObj := List (String × String)
deriving DecidableEq

/-- JS object spread `{...a, ...b}`: keys of `a` in order with values
overridden by `b` where shared, then the keys only `b` has. -/
def jsMerge (a b : UserObj) : UserObj :=
  (List.map (fun kv : String × String =>
    (kv.1, ((List.lookup kv.1 b).getD kv.2))) a) ++
  List.filter (fun kv : String × String => (List.lookup kv.1 a).isNone) b

structure AuthState where
  user : Option UserObj
  isAuthenticated : Bool
  isLoading : Bool
  error : Option String
deriving DecidableEq

/-- The initial zustand state: user null, not authenticated, loading,
no error. -/
def initialAuthState : AuthState := ⟨none, false, true, none⟩

/-- The catch blocks of the store `register` and `login`: the caught
value is always an Error thrown by authAPI (never a plain string), so
`typeof error === 'string'` fails and `error.message` is used when
truthy; an Error has no `response` property, so an empty message falls
back to the fixed phrase. -/
def storeCaughtMessage (fallback : String) (m : String) : String :=
  if m == "" then fallback else m

inductive RegisterResult where
  | ok (user : UserObj)   -- success true, autoLogin true in the source
  | fail (error : String) -- success false
deriving DecidableEq

inductive LoginResult where
  | ok
  | fail (error : String)
deriving DecidableEq

/-- Store `register`: set loading, then await `authAPI.register`,
`authAPI.login` with the same credentials, and
`authAPI.getCurrentUser`; the first failure jumps to the shared catch
block. -/
def register (st : AuthState)
    (regResult : Except HttpFailure Unit)
    (loginResult : Except HttpFailure Unit)
    (meResult : Except Unit UserObj) : AuthState × RegisterResult :=
  let st := { st with isLoading := true, error := none }
  let failWith := fun (m : String) =>
    let errorMessage := storeCaughtMessage "Registration failed" m
    ({ st with error := some errorMessage, isLoading := false },
     RegisterResult.fail errorMessage)
  match regResult with
  | .error f => failWith (registrationErrorMessage f)
  | .ok _ =>
    match loginResult with
    | .error f => failWith (loginErrorMessage f)
    | .ok _ =>
      match meResult with
      | .error _ => failWith meErrorMessage
      | .ok fullUser =>
        ({ st with user := some fullUser, isAuthenticated := true,
                   isLoading := false },
         RegisterResult.ok fullUser)

/-- Store `login`: set loading, await `authAPI.login` then
`authAPI.getCurrentUser`; any failure jumps to the catch block. -/
def login (st : AuthState)
    (loginResult : Except HttpFailure Unit)
    (meResult : Except Unit UserObj) : AuthState × LoginResult :=
  let st := { st with isLoading := true, error := none }
  let failWith := fun (m : String) =>
    let errorMessage := storeCaughtMessage "Login failed" m
    ({ st with error := some errorMessage, isLoading := false },
     LoginResult.fail errorMessage)
  match loginResult with
  | .error f => failWith (loginErrorMessage f)
  | .ok _ =>
    match meResult with
    | .error _ => failWith meErrorMessage
    | .ok user =>
      ({ st with user := some user, isAuthenticated := true,
                 isLoading := false },
       LoginResult.ok)

/-- `authAPI.logout` acting on the token store: the try block posts the
refresh token when one is truthy, a rejected POST is caught and only
logged, and the finally block always runs `tokenStorage.clearTokens`.
So the resulting store is cleared for every backend outcome. -/
def logoutTokens (ts : TokenStore) (postResult : Except Unit Unit) :
    TokenStore :=
  let _posted := strTruthy (getRefreshToken ts)
  let _ := postResult
  clearTokens ts

/-- Store `logout`: awaits `authAPI.logout` (which never rethrows, but
even a rethrow would be caught here) and in its finally block always
sets user null, isAuthenticated false, error null; isLoading is not
touched. -/
def logout (st : AuthState) (postResult : Except Unit Unit) : AuthState :=
  let _ := postResult
  { st with user := none, isAuthenticated := false, error := none }

/-- Store `initializeAuth` (name shortened here): when a stored access
token is truthy, fetch the profile; on fetch failure clear tokens and
reset the session; with no token only drop the loading flag. -/
def initAuth (st : AuthState) (ts : TokenStore)
    (meResult : Except Unit UserObj) : AuthState × TokenStore :=
  if strTruthy (getAccessToken ts) then
    match meResult with
    | .ok user =>
      ({ st with user := some user, isAuthenticated := true,
                 isLoading := false }, ts)
    | .error _ =>
      ({ st with user := none, isAuthenticated := false,
                 isLoading := false }, clearTokens ts)
  else
    ({ st with isLoading := false }, ts)

/-- Store `updateUser`: shallow-merge into the current profile; no-op
when there is none. -/
def updateUser (st : AuthState) (userData : UserObj) : AuthState :=
  match st.user with
  | some currentUser =>
    { st with user := some (jsMerge currentUser userData) }
  | none => st

/-- Store `clearError`. -/
def clearError (st : AuthState) : AuthState := { st with error := none }

/-- The session states reachable from the initial zustand state by any
sequence of the six store operations, under every possible backend
outcome. -/
inductive ReachableAuth : AuthState → Prop where
  | start : ReachableAuth initialAuthState
  | stepInit (s ts meR) : ReachableAuth s →
      ReachableAuth (initAuth s ts meR).1
  | stepRegister (s a b c) : ReachableAuth s →
      ReachableAuth (register s a b c).1
  | stepLogin (s a b) : ReachableAuth s → ReachableAuth (login s a b).1
  | stepLogout (s o) : ReachableAuth s → ReachableAuth (logout s o)
  | stepUpdateUser (s d) : ReachableAuth s →
      ReachableAuth (updateUser s d)
  | stepClearError (s) : ReachableAuth s → ReachableAuth (clearError s)

/-! ### Concrete scenarios used by the claim theorems -/

/-- Decode oracle of a backend whose refresh token "R" carries expiry
claim 2000 (in the future of the reference time 1000 used below). -/
def decodeValidR : String → DecodeOutcome :=
  fun s => if s == "R" then .payload (some 2000) else .fail

/-- Decode oracle under which every decodable token has expiry claim
500 (in the past of the reference time 1000 used below). -/
def decodePastExp : String → DecodeOutcome := fun _ => .payload (some 500)

/-- Token store holding only the refresh token "R". -/
def tsWithRefresh : TokenStore := setRefreshToken TokenStore.empty "R"

/-- Token store holding only the access token "A" (no refresh token). -/
def tsAccessOnly : TokenStore := setAccessToken TokenStore.empty "A"

/-- Token store holding access token "A" and refresh token "R". -/
def tsBothTokens : TokenStore :=
  setRefreshToken (setAccessToken TokenStore.empty "A") "R"

/-- Timer scenario: access token "a" stored at t = 0 ms, superseded by
access token "b" at t = 300000 ms (5 minutes later). -/
def staleTimerScenario : TimedTokenState :=
  setAccessTokenAt (setAccessTokenAt TimedTokenState.empty 0 "a") 300000 "b"

/-- A login rejection with a plain-string detail. -/
def invalidCredsFailure : HttpFailure := ⟨some 401, .str "Invalid credentials"⟩

/-! ### Helper lemmas -/

theorem str_length_ne_zero (m : String) (hm : m ≠ "") : m.length ≠ 0 := by
  intro h0
  apply hm
  apply String.ext
  have hd : m.data = [] := List.length_eq_zero.mp h0
  rw [hd]

theorem intercalate_go_append (s : String) (rest : List String) :
    ∀ acc : String,
      ∃ t : String, String.intercalate.go acc s rest = acc ++ t := by
  induction rest with
  | nil => intro acc; exact ⟨"", by simp [String.intercalate.go]⟩
  | cons a as ih =>
    intro acc
    obtain ⟨t, ht⟩ := ih (acc ++ s ++ a)
    refine ⟨s ++ a ++ t, ?_⟩
    calc String.intercalate.go acc s (a :: as)
        = String.intercalate.go (acc ++ s ++ a) s as := by
          rw [String.intercalate.go]
      _ = acc ++ s ++ a ++ t := ht
      _ = acc ++ (s ++ a ++ t) := by simp [String.append_assoc]

theorem intercalate_ne_empty (m : String) (hm : m ≠ "")
    (rest : List String) : String.intercalate ", " (m :: rest) ≠ "" := by
  obtain ⟨t, ht⟩ := intercalate_go_append ", " rest m
  intro hcontra
  have hmt : m ++ t = "" := by
    rw [← ht]
    exact hcontra
  have hlen := congrArg String.length hmt
  rw [String.length_append] at hlen
  simp at hlen
  exact str_length_ne_zero m hm hlen.1

theorem clearTokens_getAccess (ts : TokenStore) :
    getAccessToken (clearTokens ts) = none := by
  cases hm : ts.mem <;>
    simp [clearTokens, getAccessToken, strTruthy, hm]

theorem clearTokens_getRefresh (ts : TokenStore) :
    getRefreshToken (clearTokens ts) = none := by
  cases hm : ts.mem <;>
    simp [clearTokens, getRefreshToken, strTruthy, hm]

theorem map_entryText_msgs (msgs : List String)
    (hne : ∀ m ∈ msgs, m ≠ "") :
    (msgs.map fun m => DetailEntry.mk (some m) none "").map entryText =
      msgs := by
  induction msgs with
  | nil => rfl
  | cons m rest ih =>
    have hm : m ≠ "" := hne m (by simp)
    have hr : ∀ x ∈ rest, x ≠ "" := fun x hx => hne x (by simp [hx])
    simp [entryText, strTruthy, hm, ih hr]

/-! ### Claim theorems -/

/-- C1 (code demonstration): when three concurrent requests all
receive 401 while the store holds the valid, unexpired refresh token
"R", the interceptor issues THREE refresh calls to the backend — one
per request, each carrying the same refresh token and each awaited
only by its own request — not the single coalesced refresh the claim
requires.  The handler keeps no in-flight-refresh state, so every
prefix that runs before the first refresh response observes a valid
refresh token and starts its own refresh. -/
theorem c1_concurrent_401s_issue_three_refresh_calls :
    (deliver401s decodeValidR 1000 (LoopState.start tsWithRefresh)
        [⟨false⟩, ⟨false⟩, ⟨false⟩]).refreshCalls = 3
    ∧ (deliver401s decodeValidR 1000 (LoopState.start tsWithRefresh)
        [⟨false⟩, ⟨false⟩, ⟨false⟩]).suspended =
      [("R", ⟨true⟩), ("R", ⟨true⟩), ("R", ⟨true⟩)] := by
  constructor <;> rfl

/-- C2 (code demonstration): after setAccessToken "a" at t = 0 and
setAccessToken "b" at t = 300000 ms, getAccessToken does return "b",
but the 15-minute timeout armed by the first call is still pending
(timers fire at 900000 and 1200000 ms; nothing cancels the first), and
when the earlier one fires at t = 900000 its clearAccessToken callback
clears "b" — 300000 ms before the timeout "b" armed for itself.  The
claim that the stale timer never clears the newer token fails. -/
theorem c2_stale_timer_clears_newer_token :
    getAccessToken staleTimerScenario.store = some "b"
    ∧ staleTimerScenario.timers = [900000, 1200000]
    ∧ getAccessToken (fireEarliestTimer staleTimerScenario).store =
      none := by
  refine ⟨rfl, rfl, rfl⟩

/-- C3 (code demonstration): a 401 on a not-yet-retried request while
the refresh token is absent (first store) or expired by local
inspection (second store, decode gives expiry 500 against now = 1000)
makes the handler issue no refresh call and reject with the original
error — but the token store is returned UNCHANGED: the access token
"A" (and the stale refresh token "R") remain stored, because
tokenStorage.clearTokens only runs in the catch block and this path
never throws.  The claim that both tokens are cleared fails. -/
theorem c3_unrecoverable_401_leaves_tokens_in_place :
    respondError decodePastExp 1000 tsAccessOnly ⟨some 401⟩ ⟨false⟩ =
      (.rejectOriginal, tsAccessOnly)
    ∧ getAccessToken tsAccessOnly = some "A"
    ∧ respondError decodePastExp 1000 tsBothTokens ⟨some 401⟩ ⟨false⟩ =
      (.rejectOriginal, tsBothTokens)
    ∧ getAccessToken tsBothTokens = some "A"
    ∧ getRefreshToken tsBothTokens = some "R" := by
  refine ⟨rfl, rfl, rfl, rfl, rfl⟩

/-- C4 (counterexample): the token "x.e30.y" decodes to an empty JSON
object, i.e. to a payload without an exp claim — the claim classifies
it as not decodable as a JWT payload with an exp claim and demands
true (expired, fail-closed), but isTokenExpired evaluates
`undefined < currentTime`, which is false, and reports the token NOT
expired. -/
theorem c4_counterexample :
    isTokenExpired decodeEmptyObj 1000 (some "x.e30.y") = false
    ∧ claimedExpired decodeEmptyObj 1000 (some "x.e30.y") = true := by
  refine ⟨rfl, rfl⟩

/-- C4 (amended): isTokenExpired returns true for a null token, true
when decoding the payload throws, true when the decoded exp claim is
in the past, false when the exp claim is not in the past — and FALSE
(not expired) when the payload decodes but carries no exp claim. -/
theorem c4_expiry_check (decode : String → DecodeOutcome) (now e : Int)
    (s : String) (hs : s ≠ "") :
    isTokenExpired decode now none = true
    ∧ (decode s = .fail → isTokenExpired decode now (some s) = true)
    ∧ (decode s = .payload none →
        isTokenExpired decode now (some s) = false)
    ∧ (decode s = .payload (some e) → e < now →
        isTokenExpired decode now (some s) = true)
    ∧ (decode s = .payload (some e) → now ≤ e →
        isTokenExpired decode now (some s) = false) := by
  refine ⟨rfl, ?_, ?_, ?_, ?_⟩ <;> intro h
  · simp [isTokenExpired, hs, h]
  · simp [isTokenExpired, hs, h]
  · intro hlt
    simp [isTokenExpired, hs, h, hlt]
  · intro hle
    simp [isTokenExpired, hs, h]
    omega

/-- C4 witness: the amended characterization instantiated at the
decode oracle mapping everything to expiry claim 500, reference time
1000 and the token "t". -/
theorem c4_expiry_check_witness :
    isTokenExpired decodePastExp 1000 none = true
    ∧ (decodePastExp "t" = .fail →
        isTokenExpired decodePastExp 1000 (some "t") = true)
    ∧ (decodePastExp "t" = .payload none →
        isTokenExpired decodePastExp 1000 (some "t") = false)
    ∧ (decodePastExp "t" = .payload (some 500) → (500 : Int) < 1000 →
        isTokenExpired decodePastExp 1000 (some "t") = true)
    ∧ (decodePastExp "t" = .payload (some 500) → (1000 : Int) ≤ 500 →
        isTokenExpired decodePastExp 1000 (some "t") = false) :=
  c4_expiry_check decodePastExp 1000 500 "t" (by decide)

/-- C5: a response with status 423 (locked) or 429 (rate limited)
makes the handler fall through to Promise.reject with the original
error: no refresh call is issued, the token store is returned
unchanged (no tokens cleared), and the caller sees the failure
verbatim. -/
theorem c5_locked_and_rate_limited_surface_verbatim
    (decode : String → DecodeOutcome) (now : Int) (ts : TokenStore)
    (req : InterceptedRequest) (status : Nat)
    (h : status = 423 ∨ status = 429) :
    respondError decode now ts ⟨some status⟩ req =
      (.rejectOriginal, ts) := by
  rcases h with h | h <;> subst h <;> simp [respondError]

/-- C5 witness: a locked-account 423 on a fresh request against the
empty store. -/
theorem c5_locked_witness :
    respondError decodeEmptyObj 0 TokenStore.empty ⟨some 423⟩ ⟨false⟩ =
      (HandlerStep.rejectOriginal, TokenStore.empty) :=
  c5_locked_and_rate_limited_surface_verbatim decodeEmptyObj 0
    TokenStore.empty ⟨false⟩ 423 (Or.inl rfl)

/-- C6: for every prior session state, every token store and every
backend outcome of the logout POST (including a rejection), the store
logout leaves isAuthenticated false and user null, and the authAPI
logout leaves both tokens absent from the token store. -/
theorem c6_logout_unconditionally_clears (st : AuthState)
    (ts : TokenStore) (storePost apiPost : Except Unit Unit) :
    (logout st storePost).isAuthenticated = false
    ∧ (logout st storePost).user = none
    ∧ getAccessToken (logoutTokens ts apiPost) = none
    ∧ getRefreshToken (logoutTokens ts apiPost) = none :=
  ⟨rfl, rfl, clearTokens_getAccess ts, clearTokens_getRefresh ts⟩

/-- C7: when the backend registration succeeds but the automatic login
fails, register returns failure carrying the login error message and
the session stays unauthenticated; when the subsequent profile fetch
fails, register returns failure carrying that error message; and a
successful register result is only reachable when the auto-login and
the profile fetch both succeeded. -/
theorem c7_register_reports_auto_login_failure (st : AuthState)
    (f : HttpFailure) (meR : Except Unit UserObj)
    (hAuth : st.isAuthenticated = false)
    (hm : loginErrorMessage f ≠ "") :
    (register st (.ok ()) (.error f) meR).2 =
      RegisterResult.fail (loginErrorMessage f)
    ∧ (register st (.ok ()) (.error f) meR).1.isAuthenticated = false
    ∧ (register st (.ok ()) (.ok ()) (.error ())).2 =
      RegisterResult.fail meErrorMessage
    ∧ (register st (.ok ()) (.ok ()) (.error ())).1.isAuthenticated =
      false
    ∧ ∀ (a b : Except HttpFailure Unit) (c : Except Unit UserObj)
        (u : UserObj), (register st a b c).2 = RegisterResult.ok u →
          b = Except.ok () ∧ c = Except.ok u := by
  refine ⟨?_, ?_, ?_, ?_, ?_⟩
  · simp [register, storeCaughtMessage, hm]
  · simp [register, hAuth]
  · rfl
  · simp [register, hAuth]
  · intro a b c u h
    cases a with
    | error fa => simp [register] at h
    | ok ua =>
      cases b with
      | error fb => simp [register] at h
      | ok ub =>
        cases c with
        | error ec => simp [register] at h
        | ok uc =>
          simp [register] at h
          cases ub
          exact ⟨rfl, by rw [h]⟩

/-- C7 witness: registration succeeds, the auto-login is rejected with
detail "Invalid credentials", and register reports exactly that
message as the overall failure. -/
theorem c7_auto_login_failure_witness :
    (register initialAuthState (.ok ()) (.error invalidCredsFailure)
        (.error ())).2 = RegisterResult.fail "Invalid credentials" := by
  have h := c7_register_reports_auto_login_failure initialAuthState
    invalidCredsFailure (.error ()) rfl (by decide)
  exact h.1

/-- C8: a validation failure whose detail is a non-empty list of
entries with non-empty msg fields is stored by both login and
register as the msg fields joined with a comma and a space; a
non-empty plain-string detail is stored unchanged; an absent detail
is stored as the fixed fallback phrase of the operation. -/
theorem c8_validation_errors_normalize (st : AuthState)
    (meR : Except Unit UserObj) (b : Except HttpFailure Unit)
    (c : Except Unit UserObj) (m0 : String) (msgs : List String)
    (hne : ∀ m ∈ m0 :: msgs, m ≠ "") (s : String) (hs : s ≠ "") :
    (login st (.error ⟨some 422,
        .list ((m0 :: msgs).map fun m => ⟨some m, none, ""⟩)⟩)
      meR).1.error = some (String.intercalate ", " (m0 :: msgs))
    ∧ (register st (.error ⟨some 422,
        .list ((m0 :: msgs).map fun m => ⟨some m, none, ""⟩)⟩)
      b c).1.error = some (String.intercalate ", " (m0 :: msgs))
    ∧ (login st (.error ⟨some 422, .str s⟩) meR).1.error = some s
    ∧ (register st (.error ⟨some 422, .str s⟩) b c).1.error = some s
    ∧ (login st (.error ⟨some 422, .absent⟩) meR).1.error =
      some "Login failed"
    ∧ (register st (.error ⟨some 422, .absent⟩) b c).1.error =
      some "Registration failed" := by
  have hmap := map_entryText_msgs (m0 :: msgs) hne
  have hjoin : String.intercalate ", " (m0 :: msgs) ≠ "" :=
    intercalate_ne_empty m0 (hne m0 (by simp)) msgs
  have hnorm : ∀ fb : String, normalizeDetail fb
      (Detail.list ((m0 :: msgs).map fun m => ⟨some m, none, ""⟩)) =
      String.intercalate ", " (m0 :: msgs) := by
    intro fb
    show String.intercalate ", "
      (List.map entryText
        (List.map (fun m => DetailEntry.mk (some m) none "")
          (m0 :: msgs))) = _
    rw [hmap]
  simp only [List.map_cons] at hnorm
  refine ⟨?_, ?_, ?_, ?_, ?_, ?_⟩
  · simp [login, loginErrorMessage, storeCaughtMessage, hnorm, hjoin]
  · simp [register, registrationErrorMessage, storeCaughtMessage,
      hnorm, hjoin]
  · simp [login, loginErrorMessage, storeCaughtMessage,
      normalizeDetail, hs]
  · simp [register, registrationErrorMessage, storeCaughtMessage,
      normalizeDetail, hs]
  · simp [login, loginErrorMessage, storeCaughtMessage,
      normalizeDetail]
  · simp [register, registrationErrorMessage, storeCaughtMessage,
      normalizeDetail]

/-- C8 witness: the example from the claim — the detail list with msg
fields "Email invalid" and "Password too short" is stored as the
string "Email invalid, Password too short" by login. -/
theorem c8_normalization_witness :
    (login initialAuthState (.error ⟨some 422, .list
        [⟨some "Email invalid", none, ""⟩,
         ⟨some "Password too short", none, ""⟩]⟩)
      (.error ())).1.error =
      some "Email invalid, Password too short" := by
  have h := c8_validation_errors_normalize initialAuthState (.error ())
    (.ok ()) (.error ()) "Email invalid" ["Password too short"]
    (by decide) "x" (by decide)
  exact h.1

/-- C9: in every session state reachable from the initial zustand
state by any sequence of the six store operations under any backend
outcomes, isAuthenticated true implies a non-null user. -/
theorem c9_authenticated_implies_user (s : AuthState)
    (hr : ReachableAuth s) :
    s.isAuthenticated = true → s.user ≠ none := by
  induction hr with
  | start => intro ha; exact absurd ha (by decide)
  | stepInit s ts meR _ ih =>
    intro ha
    cases htok : strTruthy (getAccessToken ts) with
    | false =>
      simp [initAuth, htok] at ha ⊢
      exact ih ha
    | true =>
      cases meR with
      | ok u => simp [initAuth, htok]
      | error e => simp [initAuth, htok] at ha
  | stepRegister s a b c _ ih =>
    intro ha
    cases a with
    | error f =>
      simp [register] at ha ⊢
      exact ih ha
    | ok _ =>
      cases b with
      | error f =>
        simp [register] at ha ⊢
        exact ih ha
      | ok _ =>
        cases c with
        | error e =>
          simp [register] at ha ⊢
          exact ih ha
        | ok u => simp [register]
  | stepLogin s a b _ ih =>
    intro ha
    cases a with
    | error f =>
      simp [login] at ha ⊢
      exact ih ha
    | ok _ =>
      cases b with
      | error e =>
        simp [login] at ha ⊢
        exact ih ha
      | ok u => simp [login]
  | stepLogout s o _ ih =>
    intro ha
    simp [logout] at ha
  | stepUpdateUser s d _ ih =>
    intro ha
    cases hu : s.user with
    | none =>
      simp [updateUser, hu] at ha ⊢
      exact absurd hu (ih ha)
    | some u => simp [updateUser, hu]
  | stepClearError s _ ih =>
    intro ha
    simp [clearError] at ha ⊢
    exact ih ha

/-- C9 witness: the state after a successful login from the initial
state is reachable, authenticated, and indeed holds a user. -/
theorem c9_invariant_witness :
    ((login initialAuthState (Except.ok ())
        (Except.ok ([("id", "1")] : UserObj))).1).user ≠ none :=
  c9_authenticated_implies_user _
    (ReachableAuth.stepLogin initialAuthState (Except.ok ())
      (Except.ok ([("id", "1")] : UserObj)) ReachableAuth.start) rfl

/-- C10: whenever login or register returns a failure result, the
resulting state keeps exactly the prior user and isAuthenticated
values (only error and isLoading can differ). -/
theorem c10_failed_login_register_frame (st : AuthState)
    (lo a b : Except HttpFailure Unit) (me c : Except Unit UserObj) :
    ((∃ m, (login st lo me).2 = LoginResult.fail m) →
      (login st lo me).1.user = st.user
      ∧ (login st lo me).1.isAuthenticated = st.isAuthenticated)
    ∧ ((∃ m, (register st a b c).2 = RegisterResult.fail m) →
      (register st a b c).1.user = st.user
      ∧ (register st a b c).1.isAuthenticated = st.isAuthenticated) := by
  constructor
  · rintro ⟨m, hm⟩
    cases lo with
    | error f => simp [login]
    | ok _ =>
      cases me with
      | error e => simp [login]
      | ok u => simp [login] at hm
  · rintro ⟨m, hm⟩
    cases a with
    | error f => simp [register]
    | ok _ =>
      cases b with
      | error f => simp [register]
      | ok _ =>
        cases c with
        | error e => simp [register]
        | ok u => simp [register] at hm

/-- The already-authenticated session used by the C10 witness. -/
def authedState : AuthState := ⟨some [("id", "1")], true, false, none⟩

/-- C10 witness: a login rejected for invalid credentials, attempted
while a session is authenticated, keeps that session authenticated
with its user. -/
theorem c10_frame_witness :
    (login authedState (.error invalidCredsFailure)
        (.error ())).1.user = authedState.user
    ∧ (login authedState (.error invalidCredsFailure)
        (.error ())).1.isAuthenticated = authedState.isAuthenticated :=
  (c10_failed_login_register_frame authedState
    (.error invalidCredsFailure) (.ok ()) (.ok ())
    (.error ()) (.error ())).1 ⟨_, rfl⟩

end LLMModes
